/-
  Verification of the Kodak Step printer driver (zinkwell repository).

  The development shallowly embeds the Kodak Step protocol packet codec
  (`KodakStepProtocol.cpp`) and the print session logic
  (`KodakStepPrinter.cpp`) of the `KodakStepPrinter` library.

  Packets are 34-byte buffers, modelled as `List Nat` whose entries are
  byte values; `uint8_t` stores are modelled with an explicit `% 256` and
  the `uint32_t` argument of `buildPrintReadyPacket` with `% 2^32`.
  The Bluetooth serial transport is modelled as an explicit state: a
  connectivity flag, a queue of pending 34-byte responses from the
  device, and the trace of buffers written so far.
-/
import Mathlib

namespace KodakStep

/-! ## Protocol constants, from `KodakStepProtocol.h` -/

def BTP_PACKET_SIZE : Nat := 34
def BTP_CHUNK_SIZE : Nat := 4096
def BTP_MIN_BATTERY_LEVEL : Nat := 30
def BTP_MAX_IMAGE_SIZE : Nat := 2 * 1024 * 1024

def BTP_START_1 : Nat := 0x1B
def BTP_START_2 : Nat := 0x2A
def BTP_IDENT_1 : Nat := 0x43
def BTP_IDENT_2 : Nat := 0x41

def BTP_CMD_GET_ACCESSORY_INFO : Nat := 0x01
def BTP_CMD_GET_PAGE_TYPE : Nat := 0x0D
def BTP_CMD_GET_BATTERY_LEVEL : Nat := 0x0E
def BTP_CMD_GET_AUTO_POWER_OFF : Nat := 0x10
def BTP_CMD_PRINT_READY : Nat := 0x00

def BTP_ERR_SUCCESS : Nat := 0x00
def BTP_ERR_NOT_CONNECTED : Nat := 0xFE

def BTP_FLAG_STANDARD_DEVICE : Nat := 0x00
def BTP_FLAG_SLIM_DEVICE : Nat := 0x02

/-- The four magic header bytes `1B 2A 43 41` shared by every Kodak packet. -/
def kodakMagic : List Nat := [BTP_START_1, BTP_START_2, BTP_IDENT_1, BTP_IDENT_2]

/-! ## Packet builders, from `KodakStepProtocol.cpp`

Each C++ builder receives a caller-provided 34-byte buffer; here the
builder returns the buffer.  `initPacketHeader` is the `memset` to zero
followed by the five header stores. -/

def initPacketHeader (flags1 flags2 : Nat) : List Nat :=
  ((((((List.replicate BTP_PACKET_SIZE 0).set 0 BTP_START_1).set 1
      BTP_START_2).set 2 BTP_IDENT_1).set 3 BTP_IDENT_2).set 4
      (flags1 % 256)).set 5 (flags2 % 256)

def buildGetAccessoryInfoPacket (isSlim : Bool) : List Nat :=
  ((initPacketHeader 0x00
      (if isSlim then BTP_FLAG_SLIM_DEVICE else BTP_FLAG_STANDARD_DEVICE)).set 6
      BTP_CMD_GET_ACCESSORY_INFO).set 7 0x00

def buildGetBatteryLevelPacket : List Nat :=
  ((initPacketHeader 0 0).set 6 BTP_CMD_GET_BATTERY_LEVEL).set 7 0x00

def buildGetPageTypePacket : List Nat :=
  ((initPacketHeader 0 0).set 6 BTP_CMD_GET_PAGE_TYPE).set 7 0x00

def buildGetPrintCountPacket : List Nat :=
  ((initPacketHeader 0 0).set 6 BTP_CMD_PRINT_READY).set 7 0x01

def buildGetAutoPowerOffPacket : List Nat :=
  ((initPacketHeader 0 0).set 6 BTP_CMD_GET_AUTO_POWER_OFF).set 7 0x00

def buildPrintReadyPacket (imageSize numCopies : Nat) : List Nat :=
  let sz := imageSize % 2 ^ 32
  ((((((initPacketHeader 0 0).set 6 BTP_CMD_PRINT_READY).set 7 0x00).set 8
      ((sz >>> 16) % 256)).set 9 ((sz >>> 8) % 256)).set 10
      (sz % 256)).set 11 (numCopies % 256)

def buildStartOfSendAck : List Nat :=
  (((initPacketHeader 0 0).set 6 0x01).set 7 0x00).set 8 0x02

def buildEndOfReceivedAck : List Nat :=
  (((initPacketHeader 0 0).set 6 0x01).set 7 0x01).set 8 0x02

def buildErrorMessageAck (errorCode : Nat) : List Nat :=
  (((initPacketHeader 0 0).set 6 0x01).set 7 0x00).set 8 (errorCode % 256)

/-! ## Response parsing, from `KodakStepProtocol.cpp` -/

/-- `parseResponse` with a non-null `errorCode` out-parameter: returns the
boolean result paired with the reported error code. -/
def parseResponse (response : List Nat) : Bool × Nat :=
  if response.getD 0 0 ≠ BTP_START_1 ∨ response.getD 1 0 ≠ BTP_START_2 ∨
      response.getD 2 0 ≠ BTP_IDENT_1 ∨ response.getD 3 0 ≠ BTP_IDENT_2 then
    (false, BTP_ERR_NOT_CONNECTED)
  else
    let errorCode := response.getD 8 0
    (errorCode == BTP_ERR_SUCCESS, errorCode)

/-- `KodakStepProtocol::getErrorString`. -/
def getErrorString (errorCode : Nat) : String :=
  if errorCode = 0x00 then "Success"
  else if errorCode = 0x01 then "Paper jam"
  else if errorCode = 0x02 then "Out of paper"
  else if errorCode = 0x03 then "Printer cover open"
  else if errorCode = 0x04 then "Wrong paper type"
  else if errorCode = 0x05 then "Battery too low"
  else if errorCode = 0x06 then "Printer overheating"
  else if errorCode = 0x07 then "Printer cooling"
  else if errorCode = 0x08 then "Paper misfeed"
  else if errorCode = 0x09 then "Printer busy"
  else if errorCode = 0xFE then "Not connected"
  else "Unknown error"

/-! ## Transport and print session, from `KodakStepPrinter.cpp`

The `BluetoothSerial` stream is modelled as explicit state: whether the
link is up, the queue of 34-byte responses the printer will deliver, and
the trace of buffers written so far.  A successful `write` appends the
buffer to the trace; `receiveResponse` pops the next queued response and
times out (returns `none`) when the queue is empty. -/

structure Transport where
  connected : Bool
  responses : List (List Nat)
  written : List (List Nat)
deriving DecidableEq, Repr

/-- `KodakStepPrinter::sendCommand`: unless the connection check is
skipped, a dead link fails the send; otherwise the buffer is written. -/
def sendCommand (t : Transport) (command : List Nat)
    (skipConnectionCheck : Bool) : Bool × Transport :=
  if ¬skipConnectionCheck ∧ ¬t.connected then
    (false, { t with connected := false })
  else
    (true, { t with written := t.written ++ [command] })

/-- `KodakStepPrinter::receiveResponse`: reads exactly 34 bytes, or fails
on a dead link or a timeout (no queued response). -/
def receiveResponse (t : Transport) : Option (List Nat) × Transport :=
  if ¬t.connected then (none, { t with connected := false })
  else
    match t.responses with
    | [] => (none, t)
    | r :: rs => (some r, { t with responses := rs })

/-- `KodakStepPrinter::sendAndReceive`. -/
def sendAndReceive (t : Transport) (command : List Nat) :
    Option (List Nat) × Transport :=
  match sendCommand t command false with
  | (false, t1) => (none, t1)
  | (true, t1) => receiveResponse t1

/-- The printer object state the session methods touch: the transport
plus the `lastError` message set by `KodakStepPrinter::setError`. -/
structure PrinterState where
  transport : Transport
  lastError : String
deriving DecidableEq, Repr

def errNotConnected : String := "Not connected to printer"
def errZeroSize : String := "Image data size cannot be zero"
def errTooLarge : String := "Image data exceeds maximum size (2MB)"
def errBatteryFetch : String := "Failed to get battery level"
def errBatteryLow : String := "Battery too low to print"
def errPaperCheck : String := "Failed to check paper status"
def errPrintReadySend : String := "Failed to send PRINT_READY"
def errTransfer : String := "Failed to transfer image data"

/-- `KodakStepPrinter::getBatteryLevel`: sends `GetAccessoryInfo` (battery
is byte 12 of its response; `GET_BATTERY_LEVEL` would return charging
status) and reads byte 12 without parsing the header. -/
def getBatteryLevel (isSlim : Bool) (p : PrinterState) :
    Option Nat × PrinterState :=
  if ¬p.transport.connected then
    (none, { p with lastError := errNotConnected })
  else
    match sendAndReceive p.transport (buildGetAccessoryInfoPacket isSlim) with
    | (none, t1) => (none, { transport := t1, lastError := errBatteryFetch })
    | (some response, t1) =>
      (some (response.getD 12 0), { p with transport := t1 })

/-- `KodakStepPrinter::checkPaperStatus`: sends `GetPageType` and parses
the response; a parse failure records the device's error string. -/
def checkPaperStatus (p : PrinterState) : Bool × PrinterState :=
  if ¬p.transport.connected then
    (false, { p with lastError := errNotConnected })
  else
    match sendAndReceive p.transport buildGetPageTypePacket with
    | (none, t1) => (false, { transport := t1, lastError := errPaperCheck })
    | (some response, t1) =>
      match parseResponse response with
      | (false, errorCode) =>
        (false, { transport := t1, lastError := getErrorString errorCode })
      | (true, _) => (true, { p with transport := t1 })

/-- The chunking of `KodakStepPrinter::transferImageData`: successive
`BTP_CHUNK_SIZE`-byte slices, the last one possibly shorter.  The loop
is fuelled by the data length: every iteration consumes at least one
byte, so `data.length` iterations always suffice. -/
def chunkListAux : Nat → List Nat → List (List Nat)
  | 0, _ => []
  | _, [] => []
  | fuel + 1, a :: as =>
    (a :: as).take BTP_CHUNK_SIZE ::
      chunkListAux fuel ((a :: as).drop BTP_CHUNK_SIZE)

def chunkList (data : List Nat) : List (List Nat) :=
  chunkListAux data.length data

/-- The chunk-sending loop of `KodakStepPrinter::transferImageData`:
each chunk goes through `sendCommand` with the connection check skipped,
and the loop stops at the first failed send. -/
def transferChunks : List (List Nat) → Transport → Bool × Transport
  | [], t => (true, t)
  | chunk :: rest, t =>
    match sendCommand t chunk true with
    | (false, t1) => (false, t1)
    | (true, t1) => transferChunks rest t1

/-- `KodakStepPrinter::transferImageData`: checks the connection once,
then sends every `BTP_CHUNK_SIZE`-byte chunk with the connection check
skipped. -/
def transferImageData (data : List Nat) (t : Transport) : Bool × Transport :=
  if ¬t.connected then (false, t)
  else transferChunks (chunkList data) t

/-- `KodakStepPrinter::printImage` for a non-null buffer: input
validation, battery refresh and threshold, paper check, `PrintReady`
exchange, then the chunked transfer. -/
def printImage (jpegData : List Nat) (numCopies : Nat) (isSlim : Bool)
    (p : PrinterState) : Bool × PrinterState :=
  if jpegData.length = 0 then
    (false, { p with lastError := errZeroSize })
  else if jpegData.length > BTP_MAX_IMAGE_SIZE then
    (false, { p with lastError := errTooLarge })
  else if ¬p.transport.connected then
    (false, { p with lastError := errNotConnected })
  else
    match getBatteryLevel isSlim p with
    | (none, p1) => (false, p1)
    | (some battery, p1) =>
      if battery < BTP_MIN_BATTERY_LEVEL then
        (false, { p1 with lastError := errBatteryLow })
      else
        match checkPaperStatus p1 with
        | (false, p2) => (false, p2)
        | (true, p2) =>
          match sendAndReceive p2.transport
              (buildPrintReadyPacket jpegData.length numCopies) with
          | (none, t3) =>
            (false, { transport := t3, lastError := errPrintReadySend })
          | (some response, t3) =>
            match parseResponse response with
            | (false, errorCode) =>
              (false, { transport := t3,
                        lastError := getErrorString errorCode })
            | (true, _) =>
              match transferImageData jpegData t3 with
              | (false, t4) =>
                (false, { transport := t4, lastError := errTransfer })
              | (true, t4) => (true, { p2 with transport := t4 })

/-! ## Builder normal forms -/

theorem buildGetAccessoryInfoPacket_eq (isSlim : Bool) :
    buildGetAccessoryInfoPacket isSlim =
      [0x1B, 0x2A, 0x43, 0x41, 0, if isSlim then 2 else 0, 0x01, 0] ++
        List.replicate 26 0 := by
  cases isSlim <;> rfl

theorem buildGetBatteryLevelPacket_eq :
    buildGetBatteryLevelPacket =
      [0x1B, 0x2A, 0x43, 0x41, 0, 0, 0x0E, 0] ++ List.replicate 26 0 := rfl

theorem buildGetPageTypePacket_eq :
    buildGetPageTypePacket =
      [0x1B, 0x2A, 0x43, 0x41, 0, 0, 0x0D, 0] ++ List.replicate 26 0 := rfl

theorem buildGetPrintCountPacket_eq :
    buildGetPrintCountPacket =
      [0x1B, 0x2A, 0x43, 0x41, 0, 0, 0x00, 0x01] ++ List.replicate 26 0 := rfl

theorem buildGetAutoPowerOffPacket_eq :
    buildGetAutoPowerOffPacket =
      [0x1B, 0x2A, 0x43, 0x41, 0, 0, 0x10, 0] ++ List.replicate 26 0 := rfl

theorem buildPrintReadyPacket_eq (s c : Nat) :
    buildPrintReadyPacket s c =
      [0x1B, 0x2A, 0x43, 0x41, 0, 0, 0, 0,
       ((s % 2 ^ 32) >>> 16) % 256, ((s % 2 ^ 32) >>> 8) % 256,
       (s % 2 ^ 32) % 256, c % 256] ++ List.replicate 22 0 := rfl

theorem buildStartOfSendAck_eq :
    buildStartOfSendAck =
      [0x1B, 0x2A, 0x43, 0x41, 0, 0, 0x01, 0, 0x02] ++ List.replicate 25 0 :=
  rfl

theorem buildEndOfReceivedAck_eq :
    buildEndOfReceivedAck =
      [0x1B, 0x2A, 0x43, 0x41, 0, 0, 0x01, 0x01, 0x02] ++
        List.replicate 25 0 := rfl

theorem buildErrorMessageAck_eq (ec : Nat) :
    buildErrorMessageAck ec =
      [0x1B, 0x2A, 0x43, 0x41, 0, 0, 0x01, 0, ec % 256] ++
        List.replicate 25 0 := rfl

/-- C1: For every image size `s ≤ 2^24 - 1` and every copies value, the
Kodak PrintReady packet built by `buildPrintReadyPacket` satisfies
`(b8<<16)|(b9<<8)|b10 = s` and byte 11 = copies; for size 50000 and
copies 1 the bytes 0-15 are exactly
`1B 2A 43 41 00 00 00 00 00 C3 50 01 00 00 00 00` and bytes 16-33 are
zero. -/
theorem printReady_packet_encodes_size_and_copies :
    (∀ s copies : Nat, s ≤ 2 ^ 24 - 1 → copies < 256 →
      ((buildPrintReadyPacket s copies).getD 8 0) <<< 16 |||
        ((buildPrintReadyPacket s copies).getD 9 0) <<< 8 |||
        ((buildPrintReadyPacket s copies).getD 10 0) = s ∧
      (buildPrintReadyPacket s copies).getD 11 0 = copies) ∧
    (buildPrintReadyPacket 50000 1).take 16 =
      [0x1B, 0x2A, 0x43, 0x41, 0, 0, 0, 0, 0x00, 0xC3, 0x50, 0x01,
       0, 0, 0, 0] ∧
    (buildPrintReadyPacket 50000 1).drop 16 = List.replicate 18 0 := by
  refine ⟨fun s copies hs hc => ?_, by decide, by decide⟩
  have hs' : s ≤ 16777215 := by simpa using hs
  have hmod : s % 2 ^ 32 = s := Nat.mod_eq_of_lt (by norm_num; omega)
  simp only [buildPrintReadyPacket_eq, List.cons_append, List.nil_append,
    List.getD_cons_succ, List.getD_cons_zero, hmod]
  constructor
  · rw [Nat.shiftRight_eq_div_pow, Nat.shiftRight_eq_div_pow,
      Nat.shiftLeft_eq, Nat.shiftLeft_eq]
    have hb : s / 2 ^ 8 % 256 * 2 ^ 8 < 2 ^ 16 := by
      have : s / 2 ^ 8 % 256 < 256 := Nat.mod_lt _ (by norm_num)
      norm_num at this ⊢
      omega
    have hlow : s % 256 < 2 ^ 8 := by
      have := Nat.mod_lt s (show 0 < 256 by norm_num)
      norm_num
      omega
    rw [mul_comm (s / 2 ^ 16 % 256) (2 ^ 16),
      ← Nat.mul_add_lt_is_or hb (s / 2 ^ 16 % 256)]
    have hregroup : 2 ^ 16 * (s / 2 ^ 16 % 256) + s / 2 ^ 8 % 256 * 2 ^ 8 =
        2 ^ 8 * (2 ^ 8 * (s / 2 ^ 16 % 256) + s / 2 ^ 8 % 256) := by ring
    rw [hregroup, ← Nat.mul_add_lt_is_or hlow]
    have e16 : (2 : Nat) ^ 16 = 65536 := by norm_num
    have e8 : (2 : Nat) ^ 8 = 256 := by norm_num
    rw [e16, e8]
    omega
  · exact Nat.mod_eq_of_lt hc

/-- Witness for C1 at size 50000, copies 1. -/
theorem printReady_packet_encodes_size_and_copies_witness :
    ((buildPrintReadyPacket 50000 1).getD 8 0) <<< 16 |||
      ((buildPrintReadyPacket 50000 1).getD 9 0) <<< 8 |||
      ((buildPrintReadyPacket 50000 1).getD 10 0) = 50000 ∧
    (buildPrintReadyPacket 50000 1).getD 11 0 = 1 :=
  printReady_packet_encodes_size_and_copies.1 50000 1 (by norm_num)
    (by norm_num)

/-- C2: Every Kodak packet builder, at every argument, produces a
34-byte buffer starting with the magic `1B 2A 43 41` whose bytes outside
that command's documented fields (bytes 8+ for the query commands,
bytes 12+ for PrintReady, bytes 9+ for the three acks) are all zero. -/
theorem builders_framing_invariant :
    (∀ isSlim : Bool,
      (buildGetAccessoryInfoPacket isSlim).length = BTP_PACKET_SIZE ∧
      (buildGetAccessoryInfoPacket isSlim).take 4 = kodakMagic ∧
      (buildGetAccessoryInfoPacket isSlim).drop 8 = List.replicate 26 0) ∧
    (buildGetBatteryLevelPacket.length = BTP_PACKET_SIZE ∧
      buildGetBatteryLevelPacket.take 4 = kodakMagic ∧
      buildGetBatteryLevelPacket.drop 8 = List.replicate 26 0) ∧
    (buildGetPageTypePacket.length = BTP_PACKET_SIZE ∧
      buildGetPageTypePacket.take 4 = kodakMagic ∧
      buildGetPageTypePacket.drop 8 = List.replicate 26 0) ∧
    (buildGetPrintCountPacket.length = BTP_PACKET_SIZE ∧
      buildGetPrintCountPacket.take 4 = kodakMagic ∧
      buildGetPrintCountPacket.drop 8 = List.replicate 26 0) ∧
    (buildGetAutoPowerOffPacket.length = BTP_PACKET_SIZE ∧
      buildGetAutoPowerOffPacket.take 4 = kodakMagic ∧
      buildGetAutoPowerOffPacket.drop 8 = List.replicate 26 0) ∧
    (∀ s c : Nat,
      (buildPrintReadyPacket s c).length = BTP_PACKET_SIZE ∧
      (buildPrintReadyPacket s c).take 4 = kodakMagic ∧
      (buildPrintReadyPacket s c).drop 12 = List.replicate 22 0) ∧
    (buildStartOfSendAck.length = BTP_PACKET_SIZE ∧
      buildStartOfSendAck.take 4 = kodakMagic ∧
      buildStartOfSendAck.drop 9 = List.replicate 25 0) ∧
    (buildEndOfReceivedAck.length = BTP_PACKET_SIZE ∧
      buildEndOfReceivedAck.take 4 = kodakMagic ∧
      buildEndOfReceivedAck.drop 9 = List.replicate 25 0) ∧
    (∀ ec : Nat,
      (buildErrorMessageAck ec).length = BTP_PACKET_SIZE ∧
      (buildErrorMessageAck ec).take 4 = kodakMagic ∧
      (buildErrorMessageAck ec).drop 9 = List.replicate 25 0) := by
  refine ⟨fun isSlim => ?_, by decide, by decide, by decide, by decide,
    fun s c => ⟨rfl, rfl, rfl⟩, by decide, by decide,
    fun ec => ⟨rfl, rfl, rfl⟩⟩
  cases isSlim <;> exact ⟨rfl, rfl, rfl⟩

/-! ## Helper lemmas shared by the response-parsing and session theorems -/

theorem take_four_eq_magic_iff {r : List Nat} (h : 4 ≤ r.length) :
    r.take 4 = kodakMagic ↔
      (r.getD 0 0 = BTP_START_1 ∧ r.getD 1 0 = BTP_START_2 ∧
       r.getD 2 0 = BTP_IDENT_1 ∧ r.getD 3 0 = BTP_IDENT_2) := by
  match r with
  | [] | [_] | [_, _] | [_, _, _] => simp at h
  | a :: b :: c :: d :: rest => simp [kodakMagic]

theorem parseResponse_success {r : List Nat} (hmagic : r.take 4 = kodakMagic)
    (hec : r.getD 8 0 = BTP_ERR_SUCCESS) :
    parseResponse r = (true, BTP_ERR_SUCCESS) := by
  have hlen : 4 ≤ r.length := by
    have := congrArg List.length hmagic
    simp [kodakMagic] at this
    omega
  obtain ⟨h0, h1, h2, h3⟩ := (take_four_eq_magic_iff hlen).mp hmagic
  have hec' : r[8]?.getD 0 = BTP_ERR_SUCCESS := by simpa using hec
  unfold parseResponse
  rw [if_neg (by push_neg; exact ⟨h0, h1, h2, h3⟩)]
  simp [hec']

theorem chunkListAux_flatten :
    ∀ (fuel : Nat) (data : List Nat), data.length ≤ fuel →
      (chunkListAux fuel data).flatten = data := by
  intro fuel
  induction fuel with
  | zero =>
    intro data hd
    have : data = [] := List.eq_nil_of_length_eq_zero (by omega)
    simp [this, chunkListAux]
  | succ n ih =>
    intro data hd
    match data with
    | [] => simp [chunkListAux]
    | a :: as =>
      have hdrop : ((a :: as).drop BTP_CHUNK_SIZE).length ≤ n := by
        simp only [List.length_drop, List.length_cons, BTP_CHUNK_SIZE]
        simp only [List.length_cons] at hd
        omega
      simp only [chunkListAux, List.flatten_cons, ih _ hdrop]
      exact List.take_append_drop _ _

/-- Reassembling the chunks recovers the image verbatim. -/
theorem chunkList_flatten (data : List Nat) :
    (chunkList data).flatten = data :=
  chunkListAux_flatten data.length data le_rfl

theorem transferChunks_writes (chunks : List (List Nat)) :
    ∀ t : Transport, transferChunks chunks t =
      (true, { t with written := t.written ++ chunks }) := by
  induction chunks with
  | nil => intro t; simp [transferChunks]
  | cons c cs ih =>
    intro t
    have hsend : sendCommand t c true =
        (true, { t with written := t.written ++ [c] }) := by
      simp [sendCommand]
    simp only [transferChunks, hsend, ih]
    simp

theorem transferImageData_connected (data : List Nat)
    (resps w : List (List Nat)) :
    transferImageData data ⟨true, resps, w⟩ =
      (true, ⟨true, resps, w ++ chunkList data⟩) := by
  simp [transferImageData, transferChunks_writes]

/-- On a connected transport with enough successful responses queued, a
nonempty input of at most `BTP_MAX_IMAGE_SIZE` bytes is accepted and the
writes are the three protocol packets followed by the image chunks. -/
theorem printImage_accepts_valid_transport
    (jpeg : List Nat) (copies : Nat) (isSlim : Bool) (e : String)
    (r1 r2 r3 : List Nat) (w : List (List Nat))
    (hjpeg : jpeg.length ≠ 0) (hsize : jpeg.length ≤ BTP_MAX_IMAGE_SIZE)
    (hbat : BTP_MIN_BATTERY_LEVEL ≤ r1.getD 12 0)
    (hm2 : r2.take 4 = kodakMagic) (he2 : r2.getD 8 0 = BTP_ERR_SUCCESS)
    (hm3 : r3.take 4 = kodakMagic) (he3 : r3.getD 8 0 = BTP_ERR_SUCCESS) :
    (printImage jpeg copies isSlim ⟨⟨true, [r1, r2, r3], w⟩, e⟩).1 = true ∧
    (printImage jpeg copies isSlim
        ⟨⟨true, [r1, r2, r3], w⟩, e⟩).2.transport.written =
      w ++ [buildGetAccessoryInfoPacket isSlim, buildGetPageTypePacket,
            buildPrintReadyPacket jpeg.length copies] ++ chunkList jpeg ∧
    (chunkList jpeg).flatten = jpeg := by
  have hp2 := parseResponse_success hm2 he2
  have hp3 := parseResponse_success hm3 he3
  have hbat' : ¬(r1[12]?.getD 0 < BTP_MIN_BATTERY_LEVEL) := by
    simpa using Nat.not_lt.mpr hbat
  have hrun : printImage jpeg copies isSlim ⟨⟨true, [r1, r2, r3], w⟩, e⟩ =
      (true, ⟨⟨true, [],
        (w ++ [buildGetAccessoryInfoPacket isSlim, buildGetPageTypePacket,
               buildPrintReadyPacket jpeg.length copies]) ++
          chunkList jpeg⟩, e⟩) := by
    simp [printImage, getBatteryLevel, checkPaperStatus, sendAndReceive,
      sendCommand, receiveResponse, hjpeg, Nat.not_lt.mpr hsize, hbat',
      hp2, hp3, transferImageData_connected]
  refine ⟨by simp [hrun], by simp [hrun], chunkList_flatten jpeg⟩

/-- C3 counterexample: a 34-byte response whose bytes 0-3 match the magic
but whose byte 8 reports `NoPaper` (0x02) is not treated as valid by
`parseResponse`, refuting "valid iff bytes 0-3 match the magic". -/
theorem parse_valid_iff_magic_counterexample :
    ([0x1B, 0x2A, 0x43, 0x41, 0, 0, 0, 0, 0x02] ++ List.replicate 25 0 :
        List Nat).length = 34 ∧
    ([0x1B, 0x2A, 0x43, 0x41, 0, 0, 0, 0, 0x02] ++ List.replicate 25 0 :
        List Nat).take 4 = kodakMagic ∧
    (parseResponse
        ([0x1B, 0x2A, 0x43, 0x41, 0, 0, 0, 0, 0x02] ++
          List.replicate 25 0)).1 = false := by
  decide

/-- C3 (amended): for every 34-byte response, parsing succeeds iff bytes
0-3 match the magic and byte 8 is zero; when the magic matches the
reported error code is byte 8; on a magic mismatch the reported error
code is 0xFE (NotConnected) and parsing fails. -/
theorem parseResponse_magic_and_error_code (r : List Nat)
    (hr : r.length = 34) :
    ((parseResponse r).1 = true ↔
      (r.take 4 = kodakMagic ∧ r.getD 8 0 = BTP_ERR_SUCCESS)) ∧
    (r.take 4 = kodakMagic → (parseResponse r).2 = r.getD 8 0) ∧
    (r.take 4 ≠ kodakMagic →
      (parseResponse r).2 = BTP_ERR_NOT_CONNECTED ∧
      (parseResponse r).1 = false) := by
  have h4 : 4 ≤ r.length := by omega
  by_cases hm : r.getD 0 0 = BTP_START_1 ∧ r.getD 1 0 = BTP_START_2 ∧
      r.getD 2 0 = BTP_IDENT_1 ∧ r.getD 3 0 = BTP_IDENT_2
  · have hmagic : r.take 4 = kodakMagic := (take_four_eq_magic_iff h4).mpr hm
    have hp : parseResponse r =
        (r.getD 8 0 == BTP_ERR_SUCCESS, r.getD 8 0) := by
      unfold parseResponse
      rw [if_neg]
      push_neg
      exact ⟨hm.1, hm.2.1, hm.2.2.1, hm.2.2.2⟩
    refine ⟨?_, fun _ => by simp [hp], fun hne => absurd hmagic hne⟩
    simp [hp, hmagic]
  · have hmagic : ¬(r.take 4 = kodakMagic) := fun hc =>
      hm ((take_four_eq_magic_iff h4).mp hc)
    have hp : parseResponse r = (false, BTP_ERR_NOT_CONNECTED) := by
      unfold parseResponse
      rw [if_pos]
      tauto
    refine ⟨?_, fun hc => absurd hc hmagic, fun _ => by simp [hp]⟩
    simp [hp, hmagic]

/-- Witness for the amended C3 at the all-success response. -/
theorem parseResponse_magic_and_error_code_witness :
    ([0x1B, 0x2A, 0x43, 0x41] ++ List.replicate 30 0 : List Nat).length =
      34 ∧
    ((parseResponse ([0x1B, 0x2A, 0x43, 0x41] ++ List.replicate 30 0)).1 =
        true ↔
      (([0x1B, 0x2A, 0x43, 0x41] ++ List.replicate 30 0 :
          List Nat).take 4 = kodakMagic ∧
       ([0x1B, 0x2A, 0x43, 0x41] ++ List.replicate 30 0 :
          List Nat).getD 8 0 = BTP_ERR_SUCCESS)) :=
  ⟨by decide,
   (parseResponse_magic_and_error_code
      ([0x1B, 0x2A, 0x43, 0x41] ++ List.replicate 30 0) (by decide)).1⟩

/-- C4: when the refreshed battery level (byte 12 of the
`GetAccessoryInfo` response) is below 30, `printImage` fails with the
battery-too-low error, and the only buffer written to the transport is
the accessory-info query, which is not a PrintReady packet for any
arguments - so no PrintReady packet and no image chunk is written. -/
theorem print_battery_too_low_refusal
    (jpeg : List Nat) (copies : Nat) (isSlim : Bool) (e : String)
    (resp : List Nat) (rest w : List (List Nat))
    (hjpeg : jpeg.length ≠ 0) (hsize : jpeg.length ≤ BTP_MAX_IMAGE_SIZE)
    (hbat : resp.getD 12 0 < BTP_MIN_BATTERY_LEVEL) :
    (printImage jpeg copies isSlim ⟨⟨true, resp :: rest, w⟩, e⟩).1 =
      false ∧
    (printImage jpeg copies isSlim
        ⟨⟨true, resp :: rest, w⟩, e⟩).2.lastError = errBatteryLow ∧
    (printImage jpeg copies isSlim
        ⟨⟨true, resp :: rest, w⟩, e⟩).2.transport.written =
      w ++ [buildGetAccessoryInfoPacket isSlim] ∧
    (∀ s c : Nat,
      buildGetAccessoryInfoPacket isSlim ≠ buildPrintReadyPacket s c) := by
  have hbat' : resp[12]?.getD 0 < BTP_MIN_BATTERY_LEVEL := by simpa using hbat
  have hrun : printImage jpeg copies isSlim ⟨⟨true, resp :: rest, w⟩, e⟩ =
      (false, ⟨⟨true, rest, w ++ [buildGetAccessoryInfoPacket isSlim]⟩,
        errBatteryLow⟩) := by
    simp [printImage, getBatteryLevel, sendAndReceive, sendCommand,
      receiveResponse, hjpeg, Nat.not_lt.mpr hsize, hbat']
  refine ⟨by simp [hrun], by simp [hrun], by simp [hrun], fun s c heq => ?_⟩
  have h6 := congrArg (fun l => List.getD l 6 0) heq
  simp [buildGetAccessoryInfoPacket_eq, buildPrintReadyPacket_eq] at h6

/-- Witness for C4: battery 0 (below 30) on a 1-byte image. -/
theorem print_battery_too_low_refusal_witness :
    ([1] : List Nat).length ≠ 0 ∧
    ([1] : List Nat).length ≤ BTP_MAX_IMAGE_SIZE ∧
    (List.replicate 34 0 : List Nat).getD 12 0 < BTP_MIN_BATTERY_LEVEL ∧
    (printImage [1] 1 false
        ⟨⟨true, [List.replicate 34 0], []⟩, ""⟩).1 = false ∧
    (printImage [1] 1 false
        ⟨⟨true, [List.replicate 34 0], []⟩, ""⟩).2.lastError =
      errBatteryLow :=
  ⟨by decide, by decide, by decide,
   (print_battery_too_low_refusal [1] 1 false "" (List.replicate 34 0) [] []
      (by decide) (by decide) (by decide)).1,
   (print_battery_too_low_refusal [1] 1 false "" (List.replicate 34 0) [] []
      (by decide) (by decide) (by decide)).2.1⟩

/-- C5 counterexample: the 4-byte input `00 00 00 00` is not a JPEG (no
`FF D8` start marker), yet `printImage` accepts it: it returns success
and the transport sees the three protocol packets followed by the fake
image verbatim - refuting "rejects non-JPEG inputs before any transport
write". -/
theorem print_accepts_non_jpeg_counterexample :
    ([0, 0, 0, 0] : List Nat).getD 0 0 ≠ 0xFF ∧
    (printImage [0, 0, 0, 0] 1 false
        ⟨⟨true,
          [[0x1B, 0x2A, 0x43, 0x41, 0, 0, 0, 0, 0, 0, 0, 0, 87] ++
             List.replicate 21 0,
           [0x1B, 0x2A, 0x43, 0x41] ++ List.replicate 30 0,
           [0x1B, 0x2A, 0x43, 0x41] ++ List.replicate 30 0], []⟩, ""⟩).1 =
      true ∧
    (printImage [0, 0, 0, 0] 1 false
        ⟨⟨true,
          [[0x1B, 0x2A, 0x43, 0x41, 0, 0, 0, 0, 0, 0, 0, 0, 87] ++
             List.replicate 21 0,
           [0x1B, 0x2A, 0x43, 0x41] ++ List.replicate 30 0,
           [0x1B, 0x2A, 0x43, 0x41] ++ List.replicate 30 0],
          []⟩, ""⟩).2.transport.written =
      [buildGetAccessoryInfoPacket false, buildGetPageTypePacket,
       buildPrintReadyPacket 4 1, [0, 0, 0, 0]] := by
  decide

/-- C5 (amended): `printImage` rejects, before any transport write and
with a typed error, exactly the empty input and inputs larger than 2 MiB;
no JPEG-marker check is performed, and any other input - given a
cooperative transport - is accepted and transferred verbatim, its size
taken as-is into the PrintReady packet. -/
theorem print_input_validation_amended :
    (∀ (jpeg : List Nat) (copies : Nat) (isSlim : Bool) (p : PrinterState),
      jpeg.length = 0 ∨ jpeg.length > BTP_MAX_IMAGE_SIZE →
      (printImage jpeg copies isSlim p).1 = false ∧
      (printImage jpeg copies isSlim p).2.transport = p.transport ∧
      ((printImage jpeg copies isSlim p).2.lastError = errZeroSize ∨
       (printImage jpeg copies isSlim p).2.lastError = errTooLarge)) ∧
    (∀ (jpeg : List Nat) (copies : Nat) (isSlim : Bool) (e : String)
        (r1 r2 r3 : List Nat) (w : List (List Nat)),
      jpeg.length ≠ 0 → jpeg.length ≤ BTP_MAX_IMAGE_SIZE →
      BTP_MIN_BATTERY_LEVEL ≤ r1.getD 12 0 →
      r2.take 4 = kodakMagic → r2.getD 8 0 = BTP_ERR_SUCCESS →
      r3.take 4 = kodakMagic → r3.getD 8 0 = BTP_ERR_SUCCESS →
      (printImage jpeg copies isSlim ⟨⟨true, [r1, r2, r3], w⟩, e⟩).1 =
        true ∧
      (printImage jpeg copies isSlim
          ⟨⟨true, [r1, r2, r3], w⟩, e⟩).2.transport.written =
        w ++ [buildGetAccessoryInfoPacket isSlim, buildGetPageTypePacket,
              buildPrintReadyPacket jpeg.length copies] ++
          chunkList jpeg ∧
      (chunkList jpeg).flatten = jpeg) := by
  constructor
  · intro jpeg copies isSlim p h
    rcases h with h0 | hbig
    · simp [printImage, h0]
    · have hne : jpeg.length ≠ 0 := by
        have : 0 < BTP_MAX_IMAGE_SIZE := by norm_num [BTP_MAX_IMAGE_SIZE]
        omega
      simp [printImage, hne, hbig]
  · intro jpeg copies isSlim e r1 r2 r3 w hjpeg hsize hbat hm2 he2 hm3 he3
    exact printImage_accepts_valid_transport jpeg copies isSlim e r1 r2 r3 w
      hjpeg hsize hbat hm2 he2 hm3 he3

/-- Witness for the amended C5: the empty input is rejected without a
write, and the minimal JPEG `FF D8 FF D9` is accepted. -/
theorem print_input_validation_amended_witness :
    (([] : List Nat).length = 0 ∨
      ([] : List Nat).length > BTP_MAX_IMAGE_SIZE) ∧
    (printImage [] 1 false ⟨⟨true, [], []⟩, ""⟩).1 = false ∧
    (printImage [0xFF, 0xD8, 0xFF, 0xD9] 1 false
        ⟨⟨true,
          [[0x1B, 0x2A, 0x43, 0x41, 0, 0, 0, 0, 0, 0, 0, 0, 87] ++
             List.replicate 21 0,
           [0x1B, 0x2A, 0x43, 0x41] ++ List.replicate 30 0,
           [0x1B, 0x2A, 0x43, 0x41] ++ List.replicate 30 0], []⟩, ""⟩).1 =
      true :=
  ⟨Or.inl rfl,
   (print_input_validation_amended.1 [] 1 false ⟨⟨true, [], []⟩, ""⟩
      (Or.inl rfl)).1,
   (print_input_validation_amended.2 [0xFF, 0xD8, 0xFF, 0xD9] 1 false ""
      ([0x1B, 0x2A, 0x43, 0x41, 0, 0, 0, 0, 0, 0, 0, 0, 87] ++
        List.replicate 21 0)
      ([0x1B, 0x2A, 0x43, 0x41] ++ List.replicate 30 0)
      ([0x1B, 0x2A, 0x43, 0x41] ++ List.replicate 30 0) []
      (by decide) (by decide) (by decide) (by decide) (by decide)
      (by decide) (by decide)).1⟩

end KodakStep
